import Mathlib

/-!
Shallow embedding of `internationalflavor/vat_number/validators.py`
(`VATNumberValidator`), together with theorems settling the claims about it.

Strings are modelled as `List Char`.  A validation call is modelled as a pure
function from the validator state, the behaviour of the remote VIES service and
the candidate value to a result paired with the post-call validator state.
The result type `Option (Except VError Unit)` distinguishes the three ways the
Python call can end: `some (.ok ())` (normal return), `some (.error e)`
(a raised `ValidationError` of kind `e`), and `none` (any other uncaught
exception, e.g. `IndexError` or `ValueError` escaping the checksum code).
-/

/-- Character class `[A-Z]` of the validator's regular expressions. -/
def isUpper (c : Char) : Bool := 65 ≤ c.toNat && c.toNat ≤ 90

/-- Character class `\d` restricted to ASCII `[0-9]`, as used by the digit
arithmetic (`int(...)`) in the checksum code. -/
def isDigitChar (c : Char) : Bool := 48 ≤ c.toNat && c.toNat ≤ 57

/-- Character class `[A-Z0-9]` of the structural regular expression. -/
def isUpperAlnum (c : Char) : Bool := isUpper c || isDigitChar c

/-- Embeds the sub-expression `[A-Z0-9]+$` of the structural check
`re.match(r"^[A-Z]{2}[A-Z0-9]+$", value)`.  Python's `$` (no `re.MULTILINE`)
matches at the end of the string or just before a single newline at the end of
the string, so the tail matches when it is a non-empty run of `[A-Z0-9]`
characters optionally followed by one final newline. -/
def tailMatch : List Char → Bool
  | [] => false
  | [c] => isUpperAlnum c
  | c :: rest => isUpperAlnum c && (tailMatch rest || rest == [Char.ofNat 10])

/-- Embeds `re.match(r"^[A-Z]{2}[A-Z0-9]+$", value)` from
`VATNumberValidator.__call__`: two `[A-Z]` characters followed by a tail
matching `[A-Z0-9]+$`. -/
def reMatchStructural : List Char → Bool
  | a :: b :: t => isUpper a && isUpper b && tailMatch t
  | _ => false

/-- Modelled from the spec: `EU_VAT_AREA` lives in
`internationalflavor/vat_number/data.py`, which is not part of the sources;
the spec describes it as "the set of country codes eligible for VIES-style
remote confirmation".  It is modelled as the EU VAT area country-code list. -/
def EU_VAT_AREA : List (List Char) :=
  ["AT".data, "BE".data, "BG".data, "CY".data, "CZ".data, "DE".data, "DK".data,
   "EE".data, "EL".data, "ES".data, "FI".data, "FR".data, "GB".data, "HR".data,
   "HU".data, "IE".data, "IT".data, "LT".data, "LU".data, "LV".data, "MT".data,
   "NL".data, "PL".data, "PT".data, "RO".data, "SE".data, "SI".data, "SK".data]

/-- Modelled from the spec: the Netherlands entry of `VAT_NUMBER_REGEXES`
(in the missing `data.py`).  The spec says the NL rule "requires exactly
9 digits", so the syntax rule accepts exactly the strings of nine decimal
digits. -/
def nlDigitsRule (rest : List Char) : Bool :=
  rest.length == 9 && rest.all isDigitChar

/-- Modelled from the spec: the Belgium entry of `VAT_NUMBER_REGEXES`
(in the missing `data.py`).  The spec says the BE rule "requires exactly
10 digits", so the syntax rule accepts exactly the strings of ten decimal
digits. -/
def beDigitsRule (rest : List Char) : Bool :=
  rest.length == 10 && rest.all isDigitChar

/-- Modelled from the spec: the `VAT_NUMBER_REGEXES` mapping of the missing
`data.py`, restricted to the two countries with checksum rules (the only
entries any claim depends on).  `none` models a `KeyError` on lookup
(an unrecognized country code). -/
def VAT_NUMBER_REGEXES (country : List Char) : Option (List Char → Bool) :=
  if country = "NL".data then some nlDigitsRule
  else if country = "BE".data then some beDigitsRule
  else none

/-- The exceptions the `suds` remote client can raise that the validator
catches (`suds.WebFault`, `suds.transport.TransportError`). -/
inductive SudsFault where
  | webFault (code : Nat)
  | transportError (code : Nat)
deriving DecidableEq, Repr

/-- The behaviour of the remote VIES service for one call: either a response
whose `valid` field is modelled as `Option Bool` (`none` models an absent or
null field), or a raised transport-level fault. -/
inductive RemoteResult where
  | ok (validField : Option Bool)
  | fault (e : SudsFault)
deriving DecidableEq, Repr

/-- The kinds of `ValidationError` the validator raises, one per distinct
message template in `VATNumberValidator.__call__`. -/
inductive VError where
  | malformedInput
  | countryNotAllowed (country : List Char)
  | unknownCountry
  | invalidForCountry (country : List Char)
  | notRegistered
deriving DecidableEq, Repr

deriving instance DecidableEq for Except

/-- The mutable state of a `VATNumberValidator` instance: the fields assigned
in `__init__` (`self.regexes`, `self.included_countries`, `self.vies_check`,
`self._suds_exception`). -/
structure Validator where
  regexes : List Char → Option (List Char → Bool)
  included_countries : List (List Char)
  vies_check : Bool
  suds_exception : Option SudsFault

/-- Embeds `VATNumberValidator.__init__`: `regexes` is the static table,
`_suds_exception` starts as `None`, and `included_countries` is built by
appending `EU_VAT_AREA` (when `eu_only`) and then the explicit
`include_countries` list (when provided). -/
def VATNumberValidator.init (eu_only : Bool) (include_countries : Option (List (List Char)))
    (vies_check : Bool) : Validator :=
  ⟨VAT_NUMBER_REGEXES,
   (if eu_only then EU_VAT_AREA else []) ++ include_countries.getD [],
   vies_check,
   none⟩

/-- The value `int(c)` of a single digit character, as an integer. -/
def digitVal (c : Char) : Int := (c.toNat : Int) - 48

/-- Embeds the NL checksum loop of `__call__`
(`total = sum(int(rest[i]) * (9 - i) for i in range(8)); total -= int(rest[8])`):
reads `rest[0]`..`rest[8]`; `none` models the uncaught `IndexError` (fewer than
nine characters) or `ValueError` (`int()` of a non-digit character). -/
def nlTotal (rest : List Char) : Option Int :=
  match rest with
  | c0 :: c1 :: c2 :: c3 :: c4 :: c5 :: c6 :: c7 :: c8 :: _ =>
    if ([c0, c1, c2, c3, c4, c5, c6, c7, c8].all isDigitChar) = true then
      some (digitVal c0 * 9 + digitVal c1 * 8 + digitVal c2 * 7 + digitVal c3 * 6 +
            digitVal c4 * 5 + digitVal c5 * 4 + digitVal c6 * 3 + digitVal c7 * 2 -
            digitVal c8)
    else none
  | _ => none

/-- The integer denoted by a string of decimal digits (most significant
first). -/
def digitsToInt (l : List Char) : Int :=
  l.foldl (fun acc c => acc * 10 + digitVal c) 0

/-- Models Python `int(s)` on the strings that can reach the BE checksum
(slices of a structurally valid remainder, so no sign or whitespace forms
arise): the value of a non-empty all-digit string, and `none` for the
`ValueError` on anything else. -/
def pyInt (l : List Char) : Option Int :=
  if l ≠ [] ∧ l.all isDigitChar = true then some (digitsToInt l) else none

/-- Embeds the country-specific checksum block of `__call__` (the
`if country == 'NL' ... elif country == 'BE' ...` chain).  `none` models a
crash inside the block, `some none` a pass, `some (some e)` a raised
`ValidationError`.  For BE the code compares
`97 - (int(rest[0:8]) % 97)` with `int(rest[8:10])`. -/
def countryCheck (country rest : List Char) : Option (Option VError) :=
  if country = "NL".data then
    match nlTotal rest with
    | none => none
    | some total =>
      if total % 11 ≠ 0 then some (some (.invalidForCountry country)) else some none
  else if country = "BE".data then
    match pyInt (rest.take 8), pyInt ((rest.drop 8).take 2) with
    | some a, some b =>
      if 97 - a % 97 ≠ b then some (some (.invalidForCountry country)) else some none
    | _, _ => none
  else some none

/-- Embeds the local (non-network) part of `__call__` on a non-`None` value:
structural check, allow-list check (`if self.included_countries and country
not in self.included_countries`), syntax lookup (`KeyError` →
unknown-country error) and match, then the checksum block.  `none` models a
crash, `some none` a local pass, `some (some e)` a raised
`ValidationError`. -/
def localResult (self : Validator) (v : List Char) : Option (Option VError) :=
  if reMatchStructural v = false then some (some .malformedInput)
  else
    let country := v.take 2
    let rest := v.drop 2
    if self.included_countries ≠ [] ∧ country ∉ self.included_countries then
      some (some (.countryNotAllowed country))
    else
      match self.regexes country with
      | none => some (some .unknownCountry)
      | some rgx =>
        if rgx rest = false then some (some (.invalidForCountry country))
        else countryCheck country rest

/-- Returns the validator with `self._suds_exception = e` (the assignment in
the `except` clause of the VIES block). -/
def setSudsException (self : Validator) (e : SudsFault) : Validator :=
  ⟨self.regexes, self.included_countries, self.vies_check, some e⟩

/-- Embeds `VATNumberValidator.__call__`.  A `None` value returns at once.
Otherwise the local checks run; on a local pass, if `self.vies_check` is set
and the country is in `EU_VAT_AREA` the remote service is consulted: a raised
transport fault is swallowed (storing the fault in `_suds_exception`) and the
call succeeds, while a response whose `valid` field `is False` raises the
does-not-exist error.  The pair returned is (call outcome, post-call validator
state). -/
def vatCall (self : Validator) (remote : RemoteResult) (value : Option (List Char)) :
    Option (Except VError Unit) × Validator :=
  match value with
  | none => (some (.ok ()), self)
  | some v =>
    match localResult self v with
    | none => (none, self)
    | some (some e) => (some (.error e), self)
    | some none =>
      if self.vies_check = true ∧ v.take 2 ∈ EU_VAT_AREA then
        match remote with
        | .fault e => (some (.ok ()), setSudsException self e)
        | .ok validField =>
          if validField = some false then (some (.error .notRegistered), self)
          else (some (.ok ()), self)
      else (some (.ok ()), self)

/-- The validator produced by `VATNumberValidator()` with all defaults:
no country restriction and no VIES check. -/
def defaultValidator : Validator := VATNumberValidator.init false none false

/-- The language the spec claims for the structural check: two uppercase
letters followed by one or more uppercase alphanumerics and nothing else. -/
def strictLang : List Char → Bool
  | a :: b :: t => isUpper a && isUpper b && !t.isEmpty && t.all isUpperAlnum
  | _ => false

/-- The language the structural check actually accepts: the claimed language,
optionally followed by a single trailing newline (Python's `$`). -/
def amendedLang (v : List Char) : Bool :=
  strictLang v
    || ((v.getLast? == some (Char.ofNat 10)) && strictLang v.dropLast)

theorem isUpperAlnum_of_digit {c : Char} (h : isDigitChar c = true) :
    isUpperAlnum c = true := by
  simp [isUpperAlnum, h]

theorem newline_not_upperAlnum : isUpperAlnum (Char.ofNat 10) = false := by decide

theorem tailMatch_of_all {t : List Char} (hne : t ≠ [])
    (hall : t.all isUpperAlnum = true) : tailMatch t = true := by
  induction t with
  | nil => cases hne rfl
  | cons c t ih =>
    cases t with
    | nil => simpa [tailMatch] using hall
    | cons d t2 =>
      simp only [List.all_cons, Bool.and_eq_true] at hall
      have h2 : tailMatch (d :: t2) = true := by
        apply ih (by simp)
        simp [hall.2.1, hall.2.2]
      simp [tailMatch, hall.1, h2]

theorem tailMatch_eq (t : List Char) :
    tailMatch t =
      ((!t.isEmpty && t.all isUpperAlnum)
        || ((t.getLast? == some (Char.ofNat 10)) && !t.dropLast.isEmpty
             && t.dropLast.all isUpperAlnum)) := by
  induction t with
  | nil => rfl
  | cons c t ih =>
    cases t with
    | nil => simp [tailMatch]
    | cons d t2 =>
      show (isUpperAlnum c && (tailMatch (d :: t2) || (d :: t2 == [Char.ofNat 10]))) = _
      rw [ih]
      cases t2 with
      | nil =>
        by_cases hd : d = Char.ofNat 10 <;>
          cases h : isUpperAlnum c <;>
            simp [hd, h, newline_not_upperAlnum, List.getLast?_cons_cons,
              List.dropLast_cons₂]
      | cons e t3 =>
        cases h : isUpperAlnum c <;>
          simp [h, List.getLast?_cons_cons, List.dropLast_cons₂, Bool.and_assoc]

theorem reMatch_eq_amended (v : List Char) :
    reMatchStructural v = amendedLang v := by
  cases v with
  | nil => rfl
  | cons a t =>
    cases t with
    | nil =>
      simp [reMatchStructural, amendedLang, strictLang]
    | cons b t =>
      cases t with
      | nil =>
        simp [reMatchStructural, tailMatch, amendedLang, strictLang,
          List.getLast?_cons_cons, List.dropLast_cons₂]
      | cons c t2 =>
        show (isUpper a && isUpper b && tailMatch (c :: t2)) = _
        rw [tailMatch_eq]
        cases ha : isUpper a <;> cases hb : isUpper b <;>
          simp [amendedLang, strictLang, ha, hb, List.getLast?_cons_cons,
            List.dropLast_cons₂, Bool.and_assoc]

theorem countryCheck_cases (country rest : List Char) :
    countryCheck country rest = none ∨ countryCheck country rest = some none ∨
      countryCheck country rest = some (some (.invalidForCountry country)) := by
  unfold countryCheck
  by_cases h1 : country = "NL".data
  · simp only [if_pos h1]
    cases hnl : nlTotal rest with
    | none => exact Or.inl rfl
    | some total =>
      by_cases ht : total % 11 ≠ 0 <;> simp [ht]
  · simp only [if_neg h1]
    by_cases h2 : country = "BE".data
    · simp only [if_pos h2]
      cases ha : pyInt (rest.take 8) with
      | none => exact Or.inl rfl
      | some a =>
        cases hb : pyInt ((rest.drop 8).take 2) with
        | none => exact Or.inl rfl
        | some b =>
          by_cases hcmp : 97 - a % 97 ≠ b <;> simp [hcmp]
    · simp [h2]

theorem localResult_malformed (s : Validator) (v : List Char) :
    localResult s v = some (some .malformedInput) ↔ reMatchStructural v = false := by
  unfold localResult
  by_cases h : reMatchStructural v = false
  · simp [h]
  · simp only [if_neg h]
    have hne : ¬ reMatchStructural v = false := h
    by_cases ha : s.included_countries ≠ [] ∧ v.take 2 ∉ s.included_countries
    · simp [ha, hne]
    · simp only [if_neg ha]
      cases hr : s.regexes (v.take 2) with
      | none => simp [hne]
      | some rgx =>
        by_cases hg : rgx (v.drop 2) = false
        · simp [hg, hne]
        · simp only [if_neg hg]
          rcases countryCheck_cases (v.take 2) (v.drop 2) with hc | hc | hc <;>
            simp [hc, hne]

theorem localResult_not_countryNotAllowed (s : Validator) (v : List Char)
    (hinc : s.included_countries = []) (c : List Char) :
    localResult s v ≠ some (some (.countryNotAllowed c)) := by
  unfold localResult
  by_cases h : reMatchStructural v = false
  · simp [h]
  · simp only [if_neg h]
    have ha : ¬ (s.included_countries ≠ [] ∧ v.take 2 ∉ s.included_countries) := by
      simp [hinc]
    simp only [if_neg ha]
    cases hr : s.regexes (v.take 2) with
    | none => simp
    | some rgx =>
      by_cases hg : rgx (v.drop 2) = false
      · simp [hg]
      · simp only [if_neg hg]
        rcases countryCheck_cases (v.take 2) (v.drop 2) with hc | hc | hc <;>
          simp [hc]

theorem vatCall_malformed_iff (s : Validator) (r : RemoteResult) (v : List Char) :
    (vatCall s r (some v)).1 = some (.error .malformedInput)
      ↔ reMatchStructural v = false := by
  unfold vatCall
  cases hl : localResult s v with
  | none =>
    have hm := localResult_malformed s v
    rw [hl] at hm
    simp at hm
    simp [hl, hm]
  | some o =>
    cases o with
    | none =>
      have hm := localResult_malformed s v
      rw [hl] at hm
      simp at hm
      by_cases hv : s.vies_check = true ∧ v.take 2 ∈ EU_VAT_AREA
      · simp only [if_pos hv]
        cases r with
        | fault e => simp [hl, hm]
        | ok validField =>
          by_cases hf : validField = some false <;> simp [hl, hf, hm]
      · simp [hl, hv, hm]
    | some e =>
      have hm := localResult_malformed s v
      rw [hl] at hm
      simp at hm
      cases e <;> simp_all

/-- The weighted sum of the spec's NL rule, transcribed from the claim:
Σ (digit[i] × (9 − i)) for i in 0..7, minus digit[8]. -/
def nlSpecSum (rest : List Char) : Int :=
  (((List.range 8).map fun i => digitVal (rest.getD i '0') * (9 - (i : Int))).sum)
    - digitVal (rest.getD 8 '0')

theorem all_upperAlnum_of_all_digit {l : List Char} (h : l.all isDigitChar = true) :
    l.all isUpperAlnum = true := by
  simp only [List.all_eq_true] at h ⊢
  exact fun c hc => isUpperAlnum_of_digit (h c hc)

theorem structural_cons {a b : Char} {rest : List Char} (ha : isUpper a = true)
    (hb : isUpper b = true) (hne : rest ≠ []) (hall : rest.all isUpperAlnum = true) :
    reMatchStructural (a :: b :: rest) = true := by
  show (isUpper a && isUpper b && tailMatch rest) = true
  simp [ha, hb, tailMatch_of_all hne hall]

theorem exists_nine (l : List Char) (h : l.length = 9) :
    ∃ c0 c1 c2 c3 c4 c5 c6 c7 c8, l = [c0, c1, c2, c3, c4, c5, c6, c7, c8] := by
  obtain ⟨c0, t, rfl⟩ := List.exists_of_length_succ l h
  have h0 : t.length = 8 := by simpa using h
  obtain ⟨c1, t, rfl⟩ := List.exists_of_length_succ t h0
  have h1 : t.length = 7 := by simpa using h0
  obtain ⟨c2, t, rfl⟩ := List.exists_of_length_succ t h1
  have h2 : t.length = 6 := by simpa using h1
  obtain ⟨c3, t, rfl⟩ := List.exists_of_length_succ t h2
  have h3 : t.length = 5 := by simpa using h2
  obtain ⟨c4, t, rfl⟩ := List.exists_of_length_succ t h3
  have h4 : t.length = 4 := by simpa using h3
  obtain ⟨c5, t, rfl⟩ := List.exists_of_length_succ t h4
  have h5 : t.length = 3 := by simpa using h4
  obtain ⟨c6, t, rfl⟩ := List.exists_of_length_succ t h5
  have h6 : t.length = 2 := by simpa using h5
  obtain ⟨c7, t, rfl⟩ := List.exists_of_length_succ t h6
  have h7 : t.length = 1 := by simpa using h6
  obtain ⟨c8, t, rfl⟩ := List.exists_of_length_succ t h7
  have h8 : t.length = 0 := by simpa using h7
  rw [List.length_eq_zero] at h8
  subst h8
  exact ⟨c0, c1, c2, c3, c4, c5, c6, c7, c8, rfl⟩

theorem nlSpecSum_explicit (c0 c1 c2 c3 c4 c5 c6 c7 c8 : Char) :
    nlSpecSum [c0, c1, c2, c3, c4, c5, c6, c7, c8] =
      digitVal c0 * 9 + digitVal c1 * 8 + digitVal c2 * 7 + digitVal c3 * 6 +
      digitVal c4 * 5 + digitVal c5 * 4 + digitVal c6 * 3 + digitVal c7 * 2 -
      digitVal c8 := by
  have h8 : List.range 8 = [0, 1, 2, 3, 4, 5, 6, 7] := by decide
  simp only [nlSpecSum, h8, List.map_cons, List.map_nil, List.sum_cons, List.sum_nil,
    List.getD_cons_zero, List.getD_cons_succ]
  push_cast
  ring

theorem nlTotal_of_nlDigitsRule {rest : List Char} (h : nlDigitsRule rest = true) :
    nlTotal rest = some (nlSpecSum rest) := by
  have h' : rest.length = 9 ∧ rest.all isDigitChar = true := by
    simpa [nlDigitsRule] using h
  obtain ⟨c0, c1, c2, c3, c4, c5, c6, c7, c8, rfl⟩ := exists_nine rest h'.1
  rw [nlSpecSum_explicit]
  simp [nlTotal, h'.2]

theorem pyInt_of_digits {l : List Char} (hne : l ≠ []) (h : l.all isDigitChar = true) :
    pyInt l = some (digitsToInt l) := by
  unfold pyInt
  rw [if_pos ⟨hne, h⟩]

theorem countryCheck_NL (rest : List Char) :
    countryCheck ['N', 'L'] rest =
      match nlTotal rest with
      | none => none
      | some total =>
        if total % 11 ≠ 0 then some (some (.invalidForCountry ['N', 'L']))
        else some none := by
  unfold countryCheck
  rw [if_pos rfl]

theorem countryCheck_BE (rest : List Char) :
    countryCheck ['B', 'E'] rest =
      match pyInt (rest.take 8), pyInt ((rest.drop 8).take 2) with
      | some a, some b =>
        if 97 - a % 97 ≠ b then some (some (.invalidForCountry ['B', 'E']))
        else some none
      | _, _ => none := by
  unfold countryCheck
  rw [if_neg (by decide), if_pos rfl]

theorem localResult_default_cons {a b : Char} {rest : List Char}
    (ha : isUpper a = true) (hb : isUpper b = true)
    (hne : rest ≠ []) (hall : rest.all isUpperAlnum = true) :
    localResult defaultValidator (a :: b :: rest) =
      match VAT_NUMBER_REGEXES [a, b] with
      | none => some (some .unknownCountry)
      | some rgx =>
        if rgx rest = false then some (some (.invalidForCountry [a, b]))
        else countryCheck [a, b] rest := by
  have hs := @structural_cons a b rest ha hb hne hall
  unfold localResult
  rw [hs, if_neg (by decide)]
  simp [defaultValidator, VATNumberValidator.init]

theorem vatCall_default (r : RemoteResult) (v : List Char) :
    (vatCall defaultValidator r (some v)).1 =
      match localResult defaultValidator v with
      | none => none
      | some (some e) => some (.error e)
      | some none => some (.ok ()) := by
  cases hl : localResult defaultValidator v with
  | none => simp [vatCall, hl]
  | some o =>
    cases o with
    | none =>
      simp only [vatCall, hl]
      rw [if_neg fun h => absurd h.1 (by decide)]
    | some e => simp [vatCall, hl]

theorem regexes_eval_NL : VAT_NUMBER_REGEXES ['N', 'L'] = some nlDigitsRule := rfl

theorem regexes_eval_BE : VAT_NUMBER_REGEXES ['B', 'E'] = some beDigitsRule := rfl

/-- C3: for every NL candidate whose remainder passes the NL syntax rule, the
checksum step succeeds if and only if the remainder consists of exactly 9
decimal digits and the weighted sum Σ(digit[i] × (9−i)) for i in 0..7, minus
digit[8], is congruent to 0 modulo 11; otherwise validation fails with the
invalid-for-country error. -/
theorem nl_checksum_iff_weighted_sum (rest : List Char) (r : RemoteResult)
    (hsyn : nlDigitsRule rest = true) :
    ((vatCall defaultValidator r (some ("NL".data ++ rest))).1 = some (.ok ())
      ↔ rest.length = 9 ∧ rest.all isDigitChar = true ∧ nlSpecSum rest % 11 = 0)
    ∧ ((vatCall defaultValidator r (some ("NL".data ++ rest))).1 = some (.ok ())
       ∨ (vatCall defaultValidator r (some ("NL".data ++ rest))).1
           = some (.error (.invalidForCountry "NL".data))) := by
  have hinfo : rest.length = 9 ∧ rest.all isDigitChar = true := by
    simpa [nlDigitsRule] using hsyn
  have hne : rest ≠ [] := by
    intro h
    rw [h] at hinfo
    simp at hinfo
  have hall := all_upperAlnum_of_all_digit hinfo.2
  rw [show "NL".data ++ rest = 'N' :: 'L' :: rest from rfl, vatCall_default,
    localResult_default_cons (by decide) (by decide) hne hall, regexes_eval_NL]
  simp only [hsyn]
  rw [if_neg (by decide), countryCheck_NL, nlTotal_of_nlDigitsRule hsyn]
  by_cases hmod : nlSpecSum rest % 11 = 0
  · simp [hmod, hinfo.1, hinfo.2]
  · simp [hmod]

/-- C4: for every BE candidate whose remainder passes the BE syntax rule, the
checksum step succeeds if and only if the remainder consists of exactly 10
decimal digits and, with A the integer value of the first 8 digits and B the
integer value of the last 2 digits, 97 − (A mod 97) equals B; otherwise
validation fails with the invalid-for-country error. -/
theorem be_checksum_iff_mod97 (rest : List Char) (r : RemoteResult)
    (hsyn : beDigitsRule rest = true) :
    ((vatCall defaultValidator r (some ("BE".data ++ rest))).1 = some (.ok ())
      ↔ rest.length = 10 ∧ rest.all isDigitChar = true ∧
          97 - digitsToInt (rest.take 8) % 97 = digitsToInt (rest.drop 8))
    ∧ ((vatCall defaultValidator r (some ("BE".data ++ rest))).1 = some (.ok ())
       ∨ (vatCall defaultValidator r (some ("BE".data ++ rest))).1
           = some (.error (.invalidForCountry "BE".data))) := by
  have hinfo : rest.length = 10 ∧ rest.all isDigitChar = true := by
    simpa [beDigitsRule] using hsyn
  have hne : rest ≠ [] := by
    intro h
    rw [h] at hinfo
    simp at hinfo
  have hall' := List.all_eq_true.mp hinfo.2
  have htake_len : (rest.take 8).length = 8 := by simp [List.length_take, hinfo.1]
  have htake_ne : rest.take 8 ≠ [] := by
    intro h
    rw [h] at htake_len
    simp at htake_len
  have htake_all : (rest.take 8).all isDigitChar = true :=
    List.all_eq_true.mpr fun c hc => hall' c (List.take_subset 8 rest hc)
  have hdrop_len : (rest.drop 8).length = 2 := by simp [List.length_drop, hinfo.1]
  have hdrop_ne : rest.drop 8 ≠ [] := by
    intro h
    rw [h] at hdrop_len
    simp at hdrop_len
  have hdrop_all : (rest.drop 8).all isDigitChar = true :=
    List.all_eq_true.mpr fun c hc => hall' c (List.drop_subset 8 rest hc)
  have htake2 : (rest.drop 8).take 2 = rest.drop 8 :=
    List.take_of_length_le (by rw [hdrop_len])
  rw [show "BE".data ++ rest = 'B' :: 'E' :: rest from rfl, vatCall_default,
    localResult_default_cons (by decide) (by decide) hne
      (all_upperAlnum_of_all_digit hinfo.2), regexes_eval_BE]
  simp only [hsyn]
  rw [if_neg (by decide), countryCheck_BE, htake2, pyInt_of_digits htake_ne htake_all,
    pyInt_of_digits hdrop_ne hdrop_all]
  by_cases hcmp : 97 - digitsToInt (rest.take 8) % 97 = digitsToInt (rest.drop 8)
  · simp [hcmp, hinfo.1, hinfo.2]
  · simp [hcmp]

theorem be_slices {rest : List Char} (hsyn : beDigitsRule rest = true) :
    pyInt (rest.take 8) = some (digitsToInt (rest.take 8)) ∧
      pyInt ((rest.drop 8).take 2) = some (digitsToInt ((rest.drop 8).take 2)) := by
  have hinfo : rest.length = 10 ∧ rest.all isDigitChar = true := by
    simpa [beDigitsRule] using hsyn
  have hall' := List.all_eq_true.mp hinfo.2
  have htake_len : (rest.take 8).length = 8 := by simp [List.length_take, hinfo.1]
  have htake_ne : rest.take 8 ≠ [] := by
    intro h
    rw [h] at htake_len
    simp at htake_len
  have htake_all : (rest.take 8).all isDigitChar = true :=
    List.all_eq_true.mpr fun c hc => hall' c (List.take_subset 8 rest hc)
  have hdrop_len : (rest.drop 8).length = 2 := by simp [List.length_drop, hinfo.1]
  have htake2 : (rest.drop 8).take 2 = rest.drop 8 :=
    List.take_of_length_le (by rw [hdrop_len])
  have hdrop_ne : rest.drop 8 ≠ [] := by
    intro h
    rw [h] at hdrop_len
    simp at hdrop_len
  have hdrop_all : (rest.drop 8).all isDigitChar = true :=
    List.all_eq_true.mpr fun c hc => hall' c (List.drop_subset 8 rest hc)
  rw [htake2]
  exact ⟨pyInt_of_digits htake_ne htake_all, pyInt_of_digits hdrop_ne hdrop_all⟩

theorem countryCheck_NL_ne_none {rest : List Char} (hsyn : nlDigitsRule rest = true) :
    countryCheck ['N', 'L'] rest ≠ none := by
  rw [countryCheck_NL, nlTotal_of_nlDigitsRule hsyn]
  by_cases hmod : nlSpecSum rest % 11 = 0 <;> simp [hmod]

theorem countryCheck_BE_ne_none {rest : List Char} (hsyn : beDigitsRule rest = true) :
    countryCheck ['B', 'E'] rest ≠ none := by
  rw [countryCheck_BE, (be_slices hsyn).1, (be_slices hsyn).2]
  by_cases hcmp : 97 - digitsToInt (rest.take 8) % 97 = digitsToInt ((rest.drop 8).take 2) <;>
    simp [hcmp]

theorem localResult_init_ne_none (eu vies : Bool) (inc : Option (List (List Char)))
    (v : List Char) :
    localResult (VATNumberValidator.init eu inc vies) v ≠ none := by
  unfold localResult
  by_cases h : reMatchStructural v = false
  · simp [h]
  · simp only [if_neg h]
    by_cases ha : (VATNumberValidator.init eu inc vies).included_countries ≠ [] ∧
        v.take 2 ∉ (VATNumberValidator.init eu inc vies).included_countries
    · simp [ha]
    · simp only [if_neg ha]
      rw [show (VATNumberValidator.init eu inc vies).regexes = VAT_NUMBER_REGEXES from rfl]
      unfold VAT_NUMBER_REGEXES
      by_cases h1 : v.take 2 = "NL".data
      · rw [if_pos h1, h1, show ("NL".data : List Char) = ['N', 'L'] from rfl]
        by_cases hg : nlDigitsRule (v.drop 2) = false
        · simp [hg]
        · simp only [if_neg hg]
          exact countryCheck_NL_ne_none (eq_true_of_ne_false hg)
      · rw [if_neg h1]
        by_cases h2 : v.take 2 = "BE".data
        · rw [if_pos h2, h2, show ("BE".data : List Char) = ['B', 'E'] from rfl]
          by_cases hg : beDigitsRule (v.drop 2) = false
          · simp [hg]
          · simp only [if_neg hg]
            exact countryCheck_BE_ne_none (eq_true_of_ne_false hg)
        · simp [h2]

theorem vatCall_init_ne_none (eu vies : Bool) (inc : Option (List (List Char)))
    (r : RemoteResult) (value : Option (List Char)) :
    (vatCall (VATNumberValidator.init eu inc vies) r value).1 ≠ none := by
  cases value with
  | none => simp [vatCall]
  | some v =>
    cases hl : localResult (VATNumberValidator.init eu inc vies) v with
    | none => exact absurd hl (localResult_init_ne_none eu vies inc v)
    | some o =>
      cases o with
      | none =>
        simp only [vatCall, hl]
        by_cases hv : (VATNumberValidator.init eu inc vies).vies_check = true ∧
            v.take 2 ∈ EU_VAT_AREA
        · simp only [if_pos hv]
          cases r with
          | fault e => simp
          | ok validField => by_cases hf : validField = some false <;> simp [hf]
        · simp [hv]
      | some e => simp [vatCall, hl]

theorem nlDigitsRule_false_of_bad {rest : List Char}
    (hbad : ¬ (rest.length = 9 ∧ rest.all isDigitChar = true)) :
    nlDigitsRule rest = false := by
  cases h : nlDigitsRule rest
  · rfl
  · exact absurd (by simpa [nlDigitsRule] using h) hbad

theorem beDigitsRule_false_of_bad {rest : List Char}
    (hbad : ¬ (rest.length = 10 ∧ rest.all isDigitChar = true)) :
    beDigitsRule rest = false := by
  cases h : beDigitsRule rest
  · rfl
  · exact absurd (by simpa [beDigitsRule] using h) hbad

/-- C1: for NL and BE (the countries with a checksum rule), a structurally
valid candidate whose remainder has the wrong digit count or contains a
non-digit character fails with the invalid-for-country error (the same
category as a syntax mismatch), and no validation call on a validator built
by `__init__` ever ends in an uncaught exception. -/
theorem checksum_digit_failure_invalidForCountry (country rest : List Char)
    (r : RemoteResult)
    (hc : country = "NL".data ∨ country = "BE".data)
    (hne : rest ≠ []) (hall : rest.all isUpperAlnum = true)
    (hbad : ¬ (rest.length = (if country = "NL".data then 9 else 10)
                ∧ rest.all isDigitChar = true)) :
    (vatCall defaultValidator r (some (country ++ rest))).1
        = some (.error (.invalidForCountry country))
    ∧ ∀ (eu vies : Bool) (inc : Option (List (List Char))) (r2 : RemoteResult)
        (value : Option (List Char)),
        (vatCall (VATNumberValidator.init eu inc vies) r2 value).1 ≠ none := by
  constructor
  · rcases hc with h | h
    · subst h
      rw [if_pos rfl] at hbad
      have hsynf : nlDigitsRule rest = false := nlDigitsRule_false_of_bad hbad
      rw [show ("NL".data : List Char) ++ rest = 'N' :: 'L' :: rest from rfl,
        vatCall_default,
        localResult_default_cons (by decide) (by decide) hne hall, regexes_eval_NL]
      simp [hsynf, show ("NL".data : List Char) = ['N', 'L'] from rfl]
    · subst h
      rw [if_neg (by decide)] at hbad
      have hsynf : beDigitsRule rest = false := beDigitsRule_false_of_bad hbad
      rw [show ("BE".data : List Char) ++ rest = 'B' :: 'E' :: rest from rfl,
        vatCall_default,
        localResult_default_cons (by decide) (by decide) hne hall, regexes_eval_BE]
      simp [hsynf, show ("BE".data : List Char) = ['B', 'E'] from rfl]
  · exact fun eu vies inc r2 value => vatCall_init_ne_none eu vies inc r2 value

/-- Witness for C1 at a concrete input: an NL remainder of nine uppercase
alphanumerics containing a non-digit is rejected with the invalid-for-country
error. -/
theorem checksum_digit_failure_invalidForCountry_witness :
    ("12345678A".data ≠ [] ∧ "12345678A".data.all isUpperAlnum = true) ∧
    (vatCall defaultValidator (.ok none) (some ("NL".data ++ "12345678A".data))).1
      = some (.error (.invalidForCountry "NL".data)) :=
  ⟨⟨by decide, by decide⟩,
   (checksum_digit_failure_invalidForCountry "NL".data "12345678A".data (.ok none)
     (Or.inl rfl) (by decide) (by decide) (by decide)).1⟩

/-- Witness for C3 at a concrete input: "NL123456782" has weighted sum 154,
divisible by 11, and validates. -/
theorem nl_checksum_iff_weighted_sum_witness :
    nlDigitsRule "123456782".data = true ∧
    (vatCall defaultValidator (.ok none) (some ("NL".data ++ "123456782".data))).1
      = some (.ok ()) :=
  ⟨by decide,
   ((nl_checksum_iff_weighted_sum "123456782".data (.ok none) (by decide)).1).mpr
     (by decide)⟩

/-- Witness for C4 at a concrete input: for the BE remainder "0000000196",
A = 1 and B = 96 = 97 − (1 mod 97), and the candidate validates. -/
theorem be_checksum_iff_mod97_witness :
    beDigitsRule "0000000196".data = true ∧
    (vatCall defaultValidator (.ok none) (some ("BE".data ++ "0000000196".data))).1
      = some (.ok ()) :=
  ⟨by decide,
   ((be_checksum_iff_mod97 "0000000196".data (.ok none) (by decide)).1).mpr
     (by decide)⟩

/-- Counterexample to C5 as stated: validating "NL123456789" does not succeed;
it fails with the invalid-for-country error, because its weighted sum
1·9 + 2·8 + 3·7 + 4·6 + 5·5 + 6·4 + 7·3 + 8·2 − 9 = 147 is not divisible
by 11. -/
theorem nl123456789_not_success :
    (vatCall defaultValidator (.ok none) (some "NL123456789".data)).1
        ≠ some (.ok ())
    ∧ nlSpecSum "123456789".data = 147 := by
  constructor
  · decide
  · decide

/-- C5 (amended): with remote checking disabled and no country restriction,
validating "NL123456789" fails with the invalid-for-country error (its
weighted sum 147 is not divisible by 11), and validating "NL123456780" fails
with the invalid-for-country error. -/
theorem nl_concrete_examples_amended :
    (vatCall defaultValidator (.ok none) (some "NL123456789".data)).1
        = some (.error (.invalidForCountry "NL".data))
    ∧ (vatCall defaultValidator (.ok none) (some "NL123456780".data)).1
        = some (.error (.invalidForCountry "NL".data)) := by
  constructor
  · decide
  · decide

/-- Counterexample to C6 as stated: the candidate "ZZ1\n" is not in the
claimed language (two uppercase letters then uppercase alphanumerics and
nothing else), yet validation proceeds past the structural check — it fails
with the unknown-country error, not the malformed-input error, because
Python's `$` matches before the trailing newline. -/
theorem structural_trailing_newline_counterexample :
    strictLang ("ZZ1".data ++ [Char.ofNat 10]) = false ∧
    (vatCall defaultValidator (.ok none) (some ("ZZ1".data ++ [Char.ofNat 10]))).1
      = some (.error .unknownCountry) := by
  constructor
  · decide
  · decide

/-- C6 (amended): for every non-None candidate, validation proceeds past the
structural check (to the country-specific steps) iff the candidate is two
uppercase letters followed by one or more uppercase alphanumerics, optionally
followed by a single trailing newline; every other string fails with the
malformed-input error. -/
theorem structural_gate_iff_amended (eu vies : Bool) (inc : Option (List (List Char)))
    (r : RemoteResult) (v : List Char) :
    ((vatCall (VATNumberValidator.init eu inc vies) r (some v)).1
        ≠ some (.error .malformedInput)) ↔ amendedLang v = true := by
  have h := vatCall_malformed_iff (VATNumberValidator.init eu inc vies) r v
  constructor
  · intro hne
    cases hs : reMatchStructural v
    · exact absurd (h.mpr hs) hne
    · rw [← reMatch_eq_amended]
      exact hs
  · intro ha
    rw [← reMatch_eq_amended] at ha
    intro hm
    have hf := h.mp hm
    rw [ha] at hf
    cases hf

/-- C7: the effective allow-list built by `__init__` is the union of the EU
VAT area (when `eu_only`) and the explicit `include_countries` list (when
provided), and a structurally valid candidate whose country code is outside a
non-empty allow-list fails with the country-not-allowed error, whatever its
remainder (so before syntax and checksum are evaluated). -/
theorem allowlist_union_rejection (eu_only vies : Bool)
    (inc : Option (List (List Char))) (v : List Char) (r : RemoteResult)
    (hstruct : reMatchStructural v = true)
    (hrestrict : (VATNumberValidator.init eu_only inc vies).included_countries ≠ [])
    (hnot : v.take 2 ∉ (VATNumberValidator.init eu_only inc vies).included_countries) :
    (vatCall (VATNumberValidator.init eu_only inc vies) r (some v)).1
        = some (.error (.countryNotAllowed (v.take 2)))
    ∧ ∀ c : List Char,
        c ∈ (VATNumberValidator.init eu_only inc vies).included_countries
          ↔ ((eu_only = true ∧ c ∈ EU_VAT_AREA) ∨ ∃ l, inc = some l ∧ c ∈ l) := by
  constructor
  · have hl : localResult (VATNumberValidator.init eu_only inc vies) v
        = some (some (.countryNotAllowed (v.take 2))) := by
      unfold localResult
      rw [if_neg (by simp [hstruct]), if_pos ⟨hrestrict, hnot⟩]
    simp [vatCall, hl]
  · intro c
    cases eu_only <;> rcases inc with _ | l <;>
      simp [VATNumberValidator.init, List.mem_append]

/-- Witness for C7 at a concrete input: with the EU-only flag set, the
structurally valid candidate "US123456789" is rejected with the
country-not-allowed error. -/
theorem allowlist_union_rejection_witness :
    (reMatchStructural "US123456789".data = true ∧
     (VATNumberValidator.init true none false).included_countries ≠ [] ∧
     "US123456789".data.take 2 ∉
       (VATNumberValidator.init true none false).included_countries) ∧
    (vatCall (VATNumberValidator.init true none false) (.ok none)
        (some "US123456789".data)).1
      = some (.error (.countryNotAllowed ("US123456789".data.take 2))) :=
  ⟨⟨by decide, by decide, by decide⟩,
   (allowlist_union_rejection true false none "US123456789".data (.ok none)
     (by decide) (by decide) (by decide)).1⟩

/-- C2: when a candidate passes all local checks and the remote registry call
raises a transport-level fault, the overall validation result is success, and
the fault is retained in `_suds_exception` for diagnostic inspection. -/
theorem remote_fault_swallowed (self : Validator) (e : SudsFault) (v : List Char)
    (hvies : self.vies_check = true)
    (heu : v.take 2 ∈ EU_VAT_AREA)
    (hlocal : localResult self v = some none) :
    (vatCall self (.fault e) (some v)).1 = some (.ok ())
    ∧ ((vatCall self (.fault e) (some v)).2).suds_exception = some e := by
  simp only [vatCall, hlocal]
  rw [if_pos ⟨hvies, heu⟩]
  exact ⟨rfl, rfl⟩

/-- Witness for C2 at a concrete input: a VIES-checking validator validating
"NL123456782" while the remote call raises a transport error still succeeds
and stores the fault. -/
theorem remote_fault_swallowed_witness :
    ((VATNumberValidator.init false none true).vies_check = true ∧
     "NL123456782".data.take 2 ∈ EU_VAT_AREA ∧
     localResult (VATNumberValidator.init false none true) "NL123456782".data
       = some none) ∧
    (vatCall (VATNumberValidator.init false none true) (.fault (.transportError 7))
        (some "NL123456782".data)).1 = some (.ok ()) ∧
    ((vatCall (VATNumberValidator.init false none true) (.fault (.transportError 7))
        (some "NL123456782".data)).2).suds_exception = some (.transportError 7) :=
  ⟨⟨rfl, by decide, by decide⟩,
   remote_fault_swallowed (VATNumberValidator.init false none true)
     (.transportError 7) "NL123456782".data rfl (by decide) (by decide)⟩

/-- C8: when the remote call completes without a fault, validation fails with
the not-registered error iff the response carries an explicit `valid = False`;
any other response (including an absent or null `valid` field) lets the
validation succeed. -/
theorem remote_response_not_registered_iff (self : Validator) (v : List Char)
    (vf : Option Bool)
    (hvies : self.vies_check = true)
    (heu : v.take 2 ∈ EU_VAT_AREA)
    (hlocal : localResult self v = some none) :
    ((vatCall self (.ok vf) (some v)).1 = some (.error .notRegistered)
      ↔ vf = some false)
    ∧ (vf ≠ some false → (vatCall self (.ok vf) (some v)).1 = some (.ok ())) := by
  simp only [vatCall, hlocal]
  rw [if_pos ⟨hvies, heu⟩]
  by_cases hf : vf = some false
  · rw [if_pos hf]
    simp [hf]
  · rw [if_neg hf]
    simp [hf]

/-- Witness for C8 at a concrete input: an explicit `valid = False` response
makes "NL123456782" fail with the not-registered error. -/
theorem remote_response_not_registered_iff_witness :
    ((vatCall (VATNumberValidator.init false none true) (.ok (some false))
        (some "NL123456782".data)).1 = some (.error .notRegistered)
      ↔ (some false : Option Bool) = some false) :=
  (remote_response_not_registered_iff (VATNumberValidator.init false none true)
    "NL123456782".data (some false) rfl (by decide) (by decide)).1

/-- Counterexample to C9 as stated: a call whose remote check faults mutates
the validator instance — `_suds_exception` changes from `None` at construction
time to the fault. -/
theorem call_mutates_validator_state :
    (vatCall (VATNumberValidator.init false none true) (.fault (.webFault 3))
        (some "NL123456782".data)).2 ≠ VATNumberValidator.init false none true := by
  intro h
  have h2 := congrArg Validator.suds_exception h
  rw [show ((vatCall (VATNumberValidator.init false none true) (.fault (.webFault 3))
        (some "NL123456782".data)).2).suds_exception = some (.webFault 3) from by decide,
    show (VATNumberValidator.init false none true).suds_exception = none from rfl] at h2
  cases h2

theorem vatCall_state (self : Validator) (r : RemoteResult)
    (value : Option (List Char)) :
    (vatCall self r value).2 = self
    ∨ ∃ e, r = .fault e ∧ (vatCall self r value).2 = setSudsException self e := by
  cases value with
  | none => exact Or.inl rfl
  | some v =>
    cases hl : localResult self v with
    | none => simp [vatCall, hl]
    | some o =>
      cases o with
      | some e => simp [vatCall, hl]
      | none =>
        simp only [vatCall, hl]
        by_cases hv : self.vies_check = true ∧ v.take 2 ∈ EU_VAT_AREA
        · simp only [if_pos hv]
          cases r with
          | fault e => exact Or.inr ⟨e, rfl, rfl⟩
          | ok vf => by_cases hf : vf = some false <;> simp [hf]
        · simp [hv]

/-- C9 (amended): a validation call leaves `regexes`, `included_countries` and
`vies_check` (and hence the static rule tables) unchanged; the only possible
mutation is that a call whose remote check raises a fault overwrites the
diagnostic `_suds_exception` field with that fault. -/
theorem call_frame_condition (self : Validator) (r : RemoteResult)
    (value : Option (List Char)) :
    ((vatCall self r value).2.regexes = self.regexes
     ∧ (vatCall self r value).2.included_countries = self.included_countries
     ∧ (vatCall self r value).2.vies_check = self.vies_check)
    ∧ ((vatCall self r value).2.suds_exception = self.suds_exception
       ∨ ∃ e, r = .fault e ∧ (vatCall self r value).2.suds_exception = some e) := by
  rcases vatCall_state self r value with h | ⟨e, hr, h⟩
  · rw [h]
    exact ⟨⟨rfl, rfl, rfl⟩, Or.inl rfl⟩
  · rw [h]
    exact ⟨⟨rfl, rfl, rfl⟩, Or.inr ⟨e, hr, rfl⟩⟩

/-- C10: constructing the validator with `eu_only = False` and an explicitly
provided empty `include_countries` list applies no country restriction: the
allow-list is empty, the membership check is skipped (an empty list is falsy),
and no call can fail with the country-not-allowed error. -/
theorem empty_include_countries_no_restriction (vies : Bool) (r : RemoteResult)
    (value : Option (List Char)) (c : List Char) :
    (VATNumberValidator.init false (some []) vies).included_countries = []
    ∧ (vatCall (VATNumberValidator.init false (some []) vies) r value).1
        ≠ some (.error (.countryNotAllowed c)) := by
  refine ⟨rfl, ?_⟩
  cases value with
  | none => simp [vatCall]
  | some v =>
    cases hl : localResult (VATNumberValidator.init false (some []) vies) v with
    | none => simp [vatCall, hl]
    | some o =>
      cases o with
      | none =>
        simp only [vatCall, hl]
        by_cases hv : (VATNumberValidator.init false (some []) vies).vies_check = true ∧
            v.take 2 ∈ EU_VAT_AREA
        · rw [if_pos hv]
          cases r with
          | fault e => simp
          | ok vf => by_cases hf : vf = some false <;> simp [hf]
        · simp [hv]
      | some e =>
        have hne := localResult_not_countryNotAllowed
          (VATNumberValidator.init false (some []) vies) v rfl c
        rw [hl] at hne
        simp only [vatCall, hl]
        intro hcontra
        apply hne
        simp only [Option.some.injEq] at hcontra
        have he : e = VError.countryNotAllowed c := by
          cases hcontra
          rfl
        rw [he]
